import Mathlib

/-!
Verification development for the parallel rendering core of the pbrt_rust
repository: the task scheduler and render task loop (src/sampler_renderer.rs)
and the specular-continuation helper of the Whitted integrator
(src/integrator/mod.rs).

External collaborators that the repository declares in lib.rs but whose
sources are not present (spectrum.rs, bsdf.rs, camera.rs, sampler.rs,
ray.rs, rng.rs, scene.rs, intersection.rs) are modelled from the
specification; every such definition carries a doc comment starting with
"Modelled from the spec:".  Everything else is a direct translation of the
Rust source.
-/

namespace Pbrt

/-! ## Scalar model

Modelled from the spec: f32 scalars.  A value is either a finite rational or
the absorbing element `nan`, which stands for every non-finite float (NaN and
the infinities are collapsed; overflow of finite arithmetic is not modelled).
Comparisons follow IEEE semantics: every ordered comparison and equality test
involving `nan` is false, hence `!=` involving `nan` is true. -/
inductive FVal where
  | fin : ℚ → FVal
  | nan : FVal
deriving DecidableEq

/-- IEEE `<` on the scalar model: false whenever an operand is not finite. -/
def flt : FVal → FVal → Bool
  | .fin a, .fin b => decide (a < b)
  | _, _ => false

/-- IEEE `<=` on the scalar model: false whenever an operand is not finite. -/
def fle : FVal → FVal → Bool
  | .fin a, .fin b => decide (a ≤ b)
  | _, _ => false

/-- IEEE `==` on the scalar model: false whenever an operand is not finite. -/
def feq : FVal → FVal → Bool
  | .fin a, .fin b => decide (a = b)
  | _, _ => false

/-- IEEE `!=`: the negation of `==`, hence true whenever an operand is `nan`. -/
def fne (a b : FVal) : Bool := !(feq a b)

/-- Addition; `nan` is absorbing. -/
def fadd : FVal → FVal → FVal
  | .fin a, .fin b => .fin (a + b)
  | _, _ => .nan

/-- Multiplication; `nan` is absorbing. -/
def fmul : FVal → FVal → FVal
  | .fin a, .fin b => .fin (a * b)
  | _, _ => .nan

/-- Division; `nan` is absorbing and division by zero is non-finite. -/
def fdiv : FVal → FVal → FVal
  | .fin a, .fin b => if b = 0 then .nan else .fin (a / b)
  | _, _ => .nan

/-- Negation; `nan` is absorbing. -/
def fneg : FVal → FVal
  | .fin a => .fin (-a)
  | .nan => .nan

/-- Absolute value; `nan` is absorbing. -/
def fabs : FVal → FVal
  | .fin a => .fin (if a < 0 then -a else a)
  | .nan => .nan

/-- Finiteness predicate on the scalar model. -/
def FVal.isFinite : FVal → Bool
  | .fin _ => true
  | .nan => false

/-! ## Spectrum

Modelled from the spec: Spectrum (spectrum.rs is not under src/) is a
radiometric quantity, additive and scalar-multiplicative, with an RGB-style
coefficient representation, a blackness test (all coefficients equal to
zero) and a validity predicate (all coefficients finite). -/
structure Spectrum where
  c0 : FVal
  c1 : FVal
  c2 : FVal
deriving DecidableEq

/-- Modelled from the spec: `Spectrum::from_value(v)` is the constant spectrum. -/
def Spectrum.from_value (v : FVal) : Spectrum := ⟨v, v, v⟩

/-- Modelled from the spec: componentwise product of two spectra. -/
def Spectrum.mul (a b : Spectrum) : Spectrum :=
  ⟨fmul a.c0 b.c0, fmul a.c1 b.c1, fmul a.c2 b.c2⟩

/-- Modelled from the spec: spectrum times scalar, `s * w`. -/
def Spectrum.scale (a : Spectrum) (s : FVal) : Spectrum :=
  ⟨fmul a.c0 s, fmul a.c1 s, fmul a.c2 s⟩

/-- Modelled from the spec: scalar times spectrum, `w * s`. -/
def scalarMul (s : FVal) (a : Spectrum) : Spectrum :=
  ⟨fmul s a.c0, fmul s a.c1, fmul s a.c2⟩

/-- Modelled from the spec: spectrum divided by a scalar. -/
def Spectrum.divScalar (a : Spectrum) (s : FVal) : Spectrum :=
  ⟨fdiv a.c0 s, fdiv a.c1 s, fdiv a.c2 s⟩

/-- Modelled from the spec: `is_black` holds when every coefficient equals 0
under float equality (so a `nan` coefficient is never black). -/
def Spectrum.is_black (a : Spectrum) : Bool :=
  feq a.c0 (FVal.fin 0) && feq a.c1 (FVal.fin 0) && feq a.c2 (FVal.fin 0)

/-- Modelled from the spec: the validity predicate used to guard propagation;
a spectrum is valid when every coefficient is finite. -/
def Spectrum.is_valid (a : Spectrum) : Bool :=
  a.c0.isFinite && a.c1.isFinite && a.c2.isFinite

/-! ## Task-count formula (src/sampler_renderer.rs, SamplerRenderer::render)

The renderer computes

  num_tasks = (|x : i32| 31 - (x.leading_zeros() as i32)
                 + (if 0 == x.bitand(x - 1) { 0 } else { 1 }))
              (max(32 * num_cpus, num_pixels / (16 * 16)))

`leading_zeros` and `bitand` are i32 primitives; they are embedded below by
structural (fuel-indexed) recursion, faithful to the primitives on the
non-negative range that `max(32 * num_cpus, ...)` with at least one logical
CPU guarantees. -/

/-- Bit length of a natural number below `2 ^ fuel` (fuel-indexed so that the
kernel can evaluate it). -/
def bitlenAux : ℕ → ℕ → ℕ
  | 0, _ => 0
  | fuel + 1, x => if x = 0 then 0 else bitlenAux fuel (x / 2) + 1

/-- Bit length of an i32-range natural number. -/
def bitlen (x : ℕ) : ℕ := bitlenAux 32 x

/-- The i32 `leading_zeros` primitive on the non-negative range:
32 minus the bit length. -/
def leading_zeros (x : ℕ) : ℤ := 32 - bitlen x

/-- Bitwise AND of two natural numbers below `2 ^ fuel`. -/
def bitandAux : ℕ → ℕ → ℕ → ℕ
  | 0, _, _ => 0
  | fuel + 1, x, y =>
    if x = 0 ∨ y = 0 then 0
    else bitandAux fuel (x / 2) (y / 2) * 2 + x % 2 * (y % 2)

/-- The i32 `bitand` primitive on the non-negative range. -/
def bitand32 (x y : ℕ) : ℕ := bitandAux 32 x y

/-- The task count computed by `SamplerRenderer::render`
(src/sampler_renderer.rs lines 180-182) from the logical CPU count and the
image pixel count. -/
def num_tasks (num_cpus num_pixels : ℕ) : ℤ :=
  let x := max (32 * num_cpus) (num_pixels / (16 * 16))
  (31 - leading_zeros x) + (if bitand32 x (x - 1) = 0 then 0 else 1)

/-- C1: the task-count formula at the spec's own worked example,
num_cpus = 4 and num_pixels = 512 * 512 = 262144.  The code evaluates to 10
(the exponent ceil(log2(max(32*4, 262144/256))) = ceil(log2 1024)), not to
the next power of two 1024 claimed by the spec, and 10 is far below
max(32 * 4, 262144 / 256) = 1024, so the computed count is neither the
claimed value nor at least the claimed lower bound. -/
theorem num_tasks_log2_bug :
    num_tasks 4 262144 = 10 ∧ num_tasks 4 262144 < 1024 ∧
      num_tasks 4 262144 < 32 * 4 := by
  refine ⟨by decide, by decide, by decide⟩

/-! ## Geometry

Modelled from the spec: vectors, points and normals (geometry collaborator,
not under src/) as triples of scalars; rays and ray differentials (ray.rs is
not under src/) as a primary ray plus two auxiliary offset rays with a time
value. -/
structure Vector where
  x : FVal
  y : FVal
  z : FVal
deriving DecidableEq

/-- Modelled from the spec: vector negation (the source writes `-(&ray.ray.d)`). -/
def Vector.neg (v : Vector) : Vector := ⟨fneg v.x, fneg v.y, fneg v.z⟩

/-- Modelled from the spec: vector addition. -/
def Vector.add (a b : Vector) : Vector := ⟨fadd a.x b.x, fadd a.y b.y, fadd a.z b.z⟩

/-- Modelled from the spec: vector subtraction. -/
def Vector.sub (a b : Vector) : Vector :=
  ⟨fadd a.x (fneg b.x), fadd a.y (fneg b.y), fadd a.z (fneg b.z)⟩

/-- Modelled from the spec: scalar times vector. -/
def Vector.smul (s : FVal) (v : Vector) : Vector :=
  ⟨fmul s v.x, fmul s v.y, fmul s v.z⟩

/-- Modelled from the spec: dot product. -/
def Vector.dot (a b : Vector) : FVal :=
  fadd (fadd (fmul a.x b.x) (fmul a.y b.y)) (fmul a.z b.z)

/-- Modelled from the spec: `abs_dot`, the absolute value of the dot product
(the |cos| factor of the Monte-Carlo estimator for unit vectors). -/
def Vector.abs_dot (a b : Vector) : FVal := fabs (Vector.dot a b)

/-- Modelled from the spec: a ray with origin, direction and time. -/
structure Ray where
  o : Vector
  d : Vector
  time : FVal
deriving DecidableEq

/-- Modelled from the spec: a primary ray plus two auxiliary offset rays
(x/y pixel derivatives). -/
structure RayDifferential where
  ray : Ray
  rx_origin : Vector
  rx_dir : Vector
  ry_origin : Vector
  ry_dir : Vector
deriving DecidableEq

/-- Modelled from the spec: `scale_differentials(s)` moves each auxiliary ray
towards the primary ray so that the offset is scaled by `s`
(the texture-filtering footprint adjustment of the render task). -/
def RayDifferential.scale_differentials (rd : RayDifferential) (s : FVal) :
    RayDifferential :=
  { rd with
    rx_origin := Vector.add rd.ray.o (Vector.smul s (Vector.sub rd.rx_origin rd.ray.o))
    rx_dir := Vector.add rd.ray.d (Vector.smul s (Vector.sub rd.rx_dir rd.ray.d))
    ry_origin := Vector.add rd.ray.o (Vector.smul s (Vector.sub rd.ry_origin rd.ray.o))
    ry_dir := Vector.add rd.ray.d (Vector.smul s (Vector.sub rd.ry_dir rd.ray.d)) }

/-! ## Intersections, RNG, BSDF -/

/-- Intersection record.  In the source in scope it is constructed as the
fieldless struct expression `intersection::Intersection` (sampler_renderer.rs
line 143 pushes exactly that as the "empty intersection"), so it is embedded
as the one-value structure. -/
structure Intersection where
deriving DecidableEq

/-- Modelled from the spec: the per-task pseudorandom stream (rng.rs is not
under src/).  The stub `PseudoRNG` in src/renderer.rs is a fieldless struct,
so the stream is embedded as an immutable seed. -/
def RNG : Type := ℤ

instance : DecidableEq RNG := inferInstanceAs (DecidableEq ℤ)

instance : OfNat RNG n := inferInstanceAs (OfNat ℤ n)

/-- Modelled from the spec: `PseudoRNG::new(task_idx)` creates the
task-exclusive stream, seeded deterministically from the task index alone. -/
def PseudoRNG.new (task_idx : ℤ) : RNG := task_idx

/-- Modelled from the spec: the BxDF lobe mask is a bit set. -/
def BxDFType : Type := ℕ

instance : DecidableEq BxDFType := inferInstanceAs (DecidableEq ℕ)

instance : OrOp BxDFType := inferInstanceAs (OrOp ℕ)

instance : OfNat BxDFType n := inferInstanceAs (OfNat ℕ n)

/-- Modelled from the spec: the reflection lobe bit. -/
def BSDF_REFLECTION : BxDFType := 1

/-- Modelled from the spec: the transmission lobe bit. -/
def BSDF_TRANSMISSION : BxDFType := 2

/-- Modelled from the spec: the specular lobe bit. -/
def BSDF_SPECULAR : BxDFType := 16

/-- Modelled from the spec: a BSDF sample point drawn from the task RNG
(`BSDFSample::new(rng)`). -/
structure BSDFSample where
  seed : ℤ
deriving DecidableEq

/-- Modelled from the spec: `BSDFSample::new` draws from the task RNG. -/
def BSDFSample.new (rng : RNG) : BSDFSample := ⟨rng⟩

/-- Modelled from the spec: the local differential geometry at the shading
point, with position `p` and shading normal `nn`. -/
structure DifferentialGeometry where
  p : Vector
  nn : Vector
deriving DecidableEq

/-- Modelled from the spec: the local scattering model at a hit point
(bsdf.rs is not under src/): the shading geometry together with the
lobe-masked importance-sampling operation `sample_f`, which returns a
sampled direction, its probability and the BSDF value. -/
structure BSDF where
  dg_shading : DifferentialGeometry
  sample_f : Vector → BSDFSample → BxDFType → Vector × FVal × Spectrum

/-! ## Specular continuation (src/integrator/mod.rs lines 20-39)

Direct translation of `process_specular`.  The Rust function is generic over
`R: Renderer` and calls `renderer.li_simple(scene, &rd, sample, rng)`; the
renderer is embedded as the radiance-evaluation function `li` it provides.
The scene and sample types are opaque type parameters, as in the source they
are only forwarded to the renderer.  Note the function has no depth
parameter of any kind, and the continuation ray differential is
`ray.clone()` (the source comment reads "!FIXME! just to compile"). -/
def process_specular {σ α : Type} (ray : RayDifferential) (bsdf : BSDF)
    (rng : RNG) (isect : Intersection)
    (li : σ → RayDifferential → α → RNG → Spectrum)
    (scene : σ) (sample : α) (sample_type : BxDFType) : Spectrum :=
  let wo := Vector.neg ray.ray.d
  let n := bsdf.dg_shading.nn
  let s := bsdf.sample_f wo (BSDFSample.new rng) sample_type
  let wi := s.1
  let pdf := s.2.1
  let f := s.2.2
  let win := Vector.abs_dot wi n
  if flt (FVal.fin 0) pdf && !f.is_black && fne win (FVal.fin 0) then
    let rd := ray
    let li_val := li scene rd sample rng
    Spectrum.divScalar (Spectrum.scale (Spectrum.mul f li_val) win) pdf
  else
    Spectrum.from_value (FVal.fin 0)

/-- Translation of `specular_reflect` (src/integrator/mod.rs lines 41-47). -/
def specular_reflect {σ α : Type} (ray : RayDifferential) (bsdf : BSDF)
    (rng : RNG) (isect : Intersection)
    (li : σ → RayDifferential → α → RNG → Spectrum)
    (scene : σ) (sample : α) : Spectrum :=
  process_specular ray bsdf rng isect li scene sample
    (BSDF_REFLECTION ||| BSDF_SPECULAR)

/-- Translation of `specular_transmit` (src/integrator/mod.rs lines 49-55). -/
def specular_transmit {σ α : Type} (ray : RayDifferential) (bsdf : BSDF)
    (rng : RNG) (isect : Intersection)
    (li : σ → RayDifferential → α → RNG → Spectrum)
    (scene : σ) (sample : α) : Spectrum :=
  process_specular ray bsdf rng isect li scene sample
    (BSDF_TRANSMISSION ||| BSDF_SPECULAR)

/-- A BSDF stub whose `sample_f` always returns the fixed outcome
`(wi, pdf, f)` at shading normal `n`, as prescribed by the spec's testable
property for the specular continuation. -/
def stubBSDF (n wi : Vector) (pdf : FVal) (f : Spectrum) : BSDF :=
  { dg_shading := { p := ⟨FVal.fin 0, FVal.fin 0, FVal.fin 0⟩, nn := n }
    sample_f := fun _ _ _ => (wi, pdf, f) }

lemma flt_zero_false_of_fle (pdf : FVal) (h : fle pdf (FVal.fin 0) = true) :
    flt (FVal.fin 0) pdf = false := by
  cases pdf with
  | fin q =>
    simp only [fle, decide_eq_true_eq] at h
    simp only [flt, decide_eq_false_iff_not]
    exact not_lt.mpr h
  | nan => simp [fle] at h

/-- C2: `process_specular` on a BSDF stub with fixed sampling outcome
`(wi, pdf, f)`: it returns exactly `f * Li(continuation) * |wi . n| / pdf`
when `pdf > 0`, `f` is not black and `|wi . n| != 0`, and returns the exact
zero spectrum in each of the three rejection cases (`pdf <= 0`, black `f`,
zero cosine); `specular_reflect` and `specular_transmit` are the same
operation at the reflection and transmission lobe masks.  The function is
total, so no rejection signals an error. -/
theorem process_specular_cases {σ α : Type}
    (li : σ → RayDifferential → α → RNG → Spectrum)
    (ray : RayDifferential) (rng : RNG) (isect : Intersection)
    (scene : σ) (sample : α) (mask : BxDFType)
    (n wi : Vector) (pdf : FVal) (f : Spectrum) :
    (flt (FVal.fin 0) pdf = true → f.is_black = false →
      feq (Vector.abs_dot wi n) (FVal.fin 0) = false →
      process_specular ray (stubBSDF n wi pdf f) rng isect li scene sample mask =
        Spectrum.divScalar
          (Spectrum.scale (Spectrum.mul f (li scene ray sample rng))
            (Vector.abs_dot wi n)) pdf)
    ∧ (fle pdf (FVal.fin 0) = true →
      process_specular ray (stubBSDF n wi pdf f) rng isect li scene sample mask =
        Spectrum.from_value (FVal.fin 0))
    ∧ (f.is_black = true →
      process_specular ray (stubBSDF n wi pdf f) rng isect li scene sample mask =
        Spectrum.from_value (FVal.fin 0))
    ∧ (Vector.abs_dot wi n = FVal.fin 0 →
      process_specular ray (stubBSDF n wi pdf f) rng isect li scene sample mask =
        Spectrum.from_value (FVal.fin 0))
    ∧ specular_reflect ray (stubBSDF n wi pdf f) rng isect li scene sample =
        process_specular ray (stubBSDF n wi pdf f) rng isect li scene sample
          (BSDF_REFLECTION ||| BSDF_SPECULAR)
    ∧ specular_transmit ray (stubBSDF n wi pdf f) rng isect li scene sample =
        process_specular ray (stubBSDF n wi pdf f) rng isect li scene sample
          (BSDF_TRANSMISSION ||| BSDF_SPECULAR) := by
  refine ⟨?_, ?_, ?_, ?_, rfl, rfl⟩
  · intro h1 h2 h3
    simp [process_specular, stubBSDF, fne, h1, h2, h3]
  · intro h
    simp [process_specular, stubBSDF, flt_zero_false_of_fle pdf h]
  · intro h
    simp [process_specular, stubBSDF, h]
  · intro h
    simp [process_specular, stubBSDF, fne, h, feq]

/-- The first coordinate axis, used as the stub shading normal. -/
def e1 : Vector := ⟨FVal.fin 1, FVal.fin 0, FVal.fin 0⟩

/-- The second coordinate axis, orthogonal to `e1`. -/
def e2 : Vector := ⟨FVal.fin 0, FVal.fin 1, FVal.fin 0⟩

/-- The zero vector. -/
def zeroV : Vector := ⟨FVal.fin 0, FVal.fin 0, FVal.fin 0⟩

/-- A concrete camera ray differential used by concrete instantiations. -/
def rayW : RayDifferential :=
  { ray := { o := zeroV, d := e1, time := FVal.fin 0 }
    rx_origin := zeroV
    rx_dir := e1
    ry_origin := zeroV
    ry_dir := e1 }

lemma abs_dot_e1_e1 : Vector.abs_dot e1 e1 = FVal.fin 1 := by
  norm_num [Vector.abs_dot, Vector.dot, e1, fmul, fadd, fabs]

lemma abs_dot_e2_e1 : Vector.abs_dot e2 e1 = FVal.fin 0 := by
  norm_num [Vector.abs_dot, Vector.dot, e1, e2, fmul, fadd, fabs]

/-- A concrete continuation radiance evaluator stub returning the constant
spectrum 3. -/
def liW : Unit → RayDifferential → Unit → RNG → Spectrum :=
  fun _ _ _ _ => Spectrum.from_value (FVal.fin 3)

/-- A concrete non-black BSDF value. -/
def fW : Spectrum := ⟨FVal.fin 2, FVal.fin 0, FVal.fin 0⟩

theorem process_specular_cases_witness :
    (process_specular rayW (stubBSDF e1 e1 (FVal.fin 1) fW) 0 Intersection.mk
        liW () () (BSDF_REFLECTION ||| BSDF_SPECULAR) =
      Spectrum.divScalar
        (Spectrum.scale (Spectrum.mul fW (liW () rayW () 0))
          (Vector.abs_dot e1 e1)) (FVal.fin 1))
    ∧ (process_specular rayW (stubBSDF e1 e1 (FVal.fin 0) fW) 0 Intersection.mk
        liW () () (BSDF_REFLECTION ||| BSDF_SPECULAR) =
      Spectrum.from_value (FVal.fin 0))
    ∧ (process_specular rayW
        (stubBSDF e1 e1 (FVal.fin 1) (Spectrum.from_value (FVal.fin 0))) 0
        Intersection.mk liW () () (BSDF_REFLECTION ||| BSDF_SPECULAR) =
      Spectrum.from_value (FVal.fin 0))
    ∧ (process_specular rayW (stubBSDF e1 e2 (FVal.fin 1) fW) 0 Intersection.mk
        liW () () (BSDF_REFLECTION ||| BSDF_SPECULAR) =
      Spectrum.from_value (FVal.fin 0)) :=
  ⟨(process_specular_cases liW rayW 0 Intersection.mk () ()
      (BSDF_REFLECTION ||| BSDF_SPECULAR) e1 e1 (FVal.fin 1) fW).1
      (by decide) (by decide) (by rw [abs_dot_e1_e1]; decide),
   (process_specular_cases liW rayW 0 Intersection.mk () ()
      (BSDF_REFLECTION ||| BSDF_SPECULAR) e1 e1 (FVal.fin 0) fW).2.1 (by decide),
   (process_specular_cases liW rayW 0 Intersection.mk () ()
      (BSDF_REFLECTION ||| BSDF_SPECULAR) e1 e1 (FVal.fin 1)
      (Spectrum.from_value (FVal.fin 0))).2.2.1 (by decide),
   (process_specular_cases liW rayW 0 Intersection.mk () ()
      (BSDF_REFLECTION ||| BSDF_SPECULAR) e1 e2 (FVal.fin 1) fW).2.2.2.1
      abs_dot_e2_e1⟩

/-! ## The missing depth counter -/

lemma fmul_one_left (c : FVal) : fmul (FVal.fin 1) c = c := by
  cases c <;> simp [fmul]

lemma fmul_one_right (c : FVal) : fmul c (FVal.fin 1) = c := by
  cases c <;> simp [fmul]

lemma fdiv_one (c : FVal) : fdiv c (FVal.fin 1) = c := by
  cases c <;> simp [fdiv]

/-- The unit spectrum of an ideal mirror stub. -/
def white : Spectrum := Spectrum.from_value (FVal.fin 1)

lemma Spectrum.mul_white (L : Spectrum) : Spectrum.mul white L = L := by
  cases L
  simp [white, Spectrum.from_value, Spectrum.mul, fmul_one_left]

lemma Spectrum.scale_one (L : Spectrum) : Spectrum.scale L (FVal.fin 1) = L := by
  cases L
  simp [Spectrum.scale, fmul_one_right]

lemma Spectrum.divScalar_one (L : Spectrum) :
    Spectrum.divScalar L (FVal.fin 1) = L := by
  cases L
  simp [Spectrum.divScalar, fdiv_one]

/-- C3: `process_specular` threads no remaining-depth counter.  With a
perfect-mirror BSDF stub (pdf 1, unit spectrum, unit cosine), the specular
continuation is evaluated unconditionally — for every radiance evaluator
`li`, for every lobe mask, the result is exactly the evaluator applied to
the unchanged inputs: the recursive call receives the same ray (the source
clones it, "!FIXME! just to compile") and no decremented depth argument, so
no depth-0 cutoff exists anywhere in the call. -/
theorem process_specular_ignores_depth {σ α : Type}
    (li : σ → RayDifferential → α → RNG → Spectrum)
    (ray : RayDifferential) (rng : RNG) (isect : Intersection)
    (scene : σ) (sample : α) (mask : BxDFType) :
    process_specular ray (stubBSDF e1 e1 (FVal.fin 1) white) rng isect li
      scene sample mask = li scene ray sample rng := by
  have hcond : (flt (FVal.fin 0) (FVal.fin 1) && !white.is_black &&
      fne (Vector.abs_dot e1 e1) (FVal.fin 0)) = true := by
    rw [abs_dot_e1_e1]; decide
  simp only [process_specular, stubBSDF, hcond, if_true]
  rw [abs_dot_e1_e1, Spectrum.mul_white, Spectrum.scale_one,
    Spectrum.divScalar_one]

/-! ## Render task (src/sampler_renderer.rs, run_task)

The render task pulls sample batches from a task-scoped sub-sampler,
generates a camera ray per sample, evaluates radiance for positive-weight
rays and records one (radiance, transmittance, intersection) triple per
sample; an invalid radiance value panics, which is embedded as an `Except`
error that aborts the task. -/

/-- Modelled from the spec: a per-pixel sample (sampler.rs is not under
src/); the source reads its `idx` field. -/
structure Sample where
  idx : ℤ
deriving DecidableEq

/-- Modelled from the spec: a sub-sampler scoped to one task's image region,
embedded as the sequence of non-empty sample batches that
`get_more_samples` yields before signalling exhaustion. -/
structure SubSampler where
  batches : List (List Sample)

/-- The fatal conditions of the render task; `invalidRadiance` embeds the
`panic!("Invalid radiance value!")` of src/sampler_renderer.rs line 130. -/
inductive RenderError where
  | invalidRadiance
deriving DecidableEq

/-- What one task records: the `l_s`, `t_s` and `isects` vectors. -/
def TaskOutput : Type := List Spectrum × List Spectrum × List Intersection

instance : DecidableEq TaskOutput :=
  inferInstanceAs (DecidableEq (List Spectrum × List Spectrum × List Intersection))

/-- The read-only context a task shares: the scene, the camera's
`generate_ray_differential`, the renderer's `li`, the sampler's
`get_sub_sampler`, and the precomputed differential scale
`1 / sqrt(samples_per_pixel())` (square roots leave the rationals, so the
scale is carried as an input).  Camera and sampler are modelled from the
spec (camera.rs and sampler.rs are not under src/) as pure functions, per
the spec's read-only-during-render contract; `li` returns the radiance
together with the optional intersection and transmittance out-parameters. -/
structure TaskContext (σ : Type) where
  scene : σ
  camera : Sample → FVal × RayDifferential
  li : σ → RayDifferential → Sample → RNG → Spectrum × Option Intersection × Option Spectrum
  get_sub_sampler : ℤ → ℤ → Option SubSampler
  inv_sqrt_spp : FVal
  seed_sample : Sample

/-- The out-parameters filled by one `renderer.li` call for one sample:
the camera ray is the generated ray with its differentials scaled
(src/sampler_renderer.rs line 116). -/
def li_out {σ : Type} (ctx : TaskContext σ) (rng : RNG) (smp : Sample) :
    Spectrum × Option Intersection × Option Spectrum :=
  ctx.li ctx.scene ((ctx.camera smp).2.scale_differentials ctx.inv_sqrt_spp)
    smp rng

/-- The weighted radiance `ray_weight * renderer.li(...)` of
src/sampler_renderer.rs line 127. -/
def weighted_radiance {σ : Type} (ctx : TaskContext σ) (rng : RNG)
    (smp : Sample) : Spectrum :=
  scalarMul (ctx.camera smp).1 (li_out ctx rng smp).1

/-- One iteration of the per-sample loop (src/sampler_renderer.rs lines
108-150): generate the camera ray and weight; if the weight is positive,
evaluate radiance, panic on an invalid value, and record the weighted
radiance, the transmittance (zero when the evaluator left it unset) and the
intersection (empty when unset); otherwise record zero radiance, zero
transmittance and an empty intersection without evaluating radiance. -/
def processSample {σ : Type} (ctx : TaskContext σ) (rng : RNG) (smp : Sample) :
    Except RenderError (Spectrum × Spectrum × Intersection) :=
  if flt (FVal.fin 0) (ctx.camera smp).1 then
    if (weighted_radiance ctx rng smp).is_valid then
      .ok (weighted_radiance ctx rng smp,
        ((li_out ctx rng smp).2.2).getD (Spectrum.from_value (FVal.fin 0)),
        ((li_out ctx rng smp).2.1).getD Intersection.mk)
    else
      .error RenderError.invalidRadiance
  else
    .ok (Spectrum.from_value (FVal.fin 0), Spectrum.from_value (FVal.fin 0),
      Intersection.mk)

/-- The per-batch sample loop: each sample appends exactly one entry to each
of the three result vectors; a panic aborts the task. -/
def runSamples {σ : Type} (ctx : TaskContext σ) (rng : RNG) :
    List Sample → Except RenderError TaskOutput
  | [] => .ok ([], [], [])
  | smp :: rest =>
    match processSample ctx rng smp with
    | .error e => .error e
    | .ok (l, t, i) =>
      match runSamples ctx rng rest with
      | .error e => .error e
      | .ok (ls, ts, is) => .ok (l :: ls, t :: ts, i :: is)

/-- Sequencing of two batch results: the recorded vectors accumulate across
batches and an earlier panic aborts the rest. -/
def appendOutputs :
    Except RenderError TaskOutput → Except RenderError TaskOutput →
      Except RenderError TaskOutput
  | .error e, _ => .error e
  | .ok _, .error e => .error e
  | .ok (l1, t1, i1), .ok (l2, t2, i2) => .ok (l1 ++ l2, t1 ++ t2, i1 ++ i2)

/-- The batch loop of run_task (src/sampler_renderer.rs lines 102-154):
process batches until the sub-sampler yields no samples. -/
def runBatches {σ : Type} (ctx : TaskContext σ) (rng : RNG) :
    List (List Sample) → Except RenderError TaskOutput
  | [] => .ok ([], [], [])
  | b :: rest => appendOutputs (runSamples ctx rng b) (runBatches ctx rng rest)

/-- Translation of `run_task` (src/sampler_renderer.rs lines 70-163): derive
the task-scoped sub-sampler and return immediately when none exists; else
create the task-exclusive RNG seeded from the task index and run the batch
loop. -/
def run_task {σ : Type} (ctx : TaskContext σ) (task_idx num_tasks : ℤ) :
    Except RenderError TaskOutput :=
  match ctx.get_sub_sampler task_idx num_tasks with
  | none => .ok ([], [], [])
  | some s => runBatches ctx (PseudoRNG.new task_idx) s.batches

/-- The render loop of `SamplerRenderer::render` (src/sampler_renderer.rs
lines 188-193) submits the tasks `0, ..., num_tasks - 1` to a thread pool;
an execution schedule is embedded as the order in which the pool runs the
task bodies, and the render's outcome as the per-task results in that
order. -/
def renderSchedule {σ : Type} (ctx : TaskContext σ) (num_tasks : ℤ)
    (order : List ℤ) : List (ℤ × Except RenderError TaskOutput) :=
  order.map (fun i => (i, run_task ctx i num_tasks))

/-- C4: a sample whose camera ray weight is 0 takes the non-tracing branch:
the task records zero radiance, zero transmittance and an empty
intersection for it, and the result does not depend on the radiance
evaluator or the scene at all (the evaluator, and hence scene intersection,
is never invoked for that sample). -/
theorem zero_weight_skips_radiance {σ : Type} (ctx : TaskContext σ)
    (rng : RNG) (smp : Sample) (hw : (ctx.camera smp).1 = FVal.fin 0) :
    processSample ctx rng smp =
      .ok (Spectrum.from_value (FVal.fin 0), Spectrum.from_value (FVal.fin 0),
        Intersection.mk) ∧
    ∀ (scene2 : σ)
      (li2 : σ → RayDifferential → Sample → RNG →
        Spectrum × Option Intersection × Option Spectrum),
      processSample { ctx with scene := scene2, li := li2 } rng smp =
        processSample ctx rng smp := by
  have hf : flt (FVal.fin 0) (ctx.camera smp).1 = false := by
    rw [hw]; decide
  constructor
  · simp [processSample, hf]
  · intro s2 li2
    have hf2 : flt (FVal.fin 0)
        (({ ctx with scene := s2, li := li2 } : TaskContext σ).camera smp).1 =
          false := hf
    simp [processSample, hf, hf2]

/-- A concrete task context whose camera returns weight 0. -/
def ctx0 : TaskContext Unit :=
  { scene := ()
    camera := fun _ => (FVal.fin 0, rayW)
    li := fun _ _ _ _ => (Spectrum.from_value (FVal.fin 5), none, none)
    get_sub_sampler := fun _ _ => some ⟨[[⟨0⟩]]⟩
    inv_sqrt_spp := FVal.fin 1
    seed_sample := ⟨0⟩ }

theorem zero_weight_skips_radiance_witness :
    processSample ctx0 0 ⟨0⟩ =
      .ok (Spectrum.from_value (FVal.fin 0), Spectrum.from_value (FVal.fin 0),
        Intersection.mk) :=
  (zero_weight_skips_radiance ctx0 0 ⟨0⟩ rfl).1

/-- C5: for a positive-weight sample, the task aborts with the fatal
invalid-radiance condition exactly when the weighted radiance fails the
spectrum validity predicate; a valid radiance proceeds without aborting. -/
theorem invalid_radiance_aborts {σ : Type} (ctx : TaskContext σ) (rng : RNG)
    (smp : Sample) (hw : flt (FVal.fin 0) (ctx.camera smp).1 = true) :
    processSample ctx rng smp = .error RenderError.invalidRadiance ↔
      (weighted_radiance ctx rng smp).is_valid = false := by
  cases hv : (weighted_radiance ctx rng smp).is_valid
  · simp [processSample, hw, hv]
  · simp [processSample, hw, hv]

/-- A concrete task context whose radiance evaluator returns a NaN spectrum
(and whose sampler yields no sub-sampler for any task). -/
def ctxNaN : TaskContext Unit :=
  { scene := ()
    camera := fun _ => (FVal.fin 1, rayW)
    li := fun _ _ _ _ => (⟨FVal.nan, FVal.fin 0, FVal.fin 0⟩, none, none)
    get_sub_sampler := fun _ _ => none
    inv_sqrt_spp := FVal.fin 1
    seed_sample := ⟨0⟩ }

theorem invalid_radiance_aborts_witness :
    processSample ctxNaN 0 ⟨0⟩ = .error RenderError.invalidRadiance :=
  (invalid_radiance_aborts ctxNaN 0 ⟨0⟩ (by decide)).mpr (by
    simp [weighted_radiance, li_out, ctxNaN, scalarMul, fmul,
      Spectrum.is_valid, FVal.isFinite])

/-- C7: a task whose index yields no sub-sampler returns immediately with
empty result vectors and no error. -/
theorem no_sub_sampler_early_exit {σ : Type} (ctx : TaskContext σ)
    (i T : ℤ) (h : ctx.get_sub_sampler i T = none) :
    run_task ctx i T = .ok ([], [], []) := by
  simp [run_task, h]

theorem no_sub_sampler_early_exit_witness :
    run_task ctxNaN 0 1 = .ok ([], [], []) :=
  no_sub_sampler_early_exit ctxNaN 0 1 rfl

/-- C10: for a positive-weight sample whose radiance evaluation leaves the
optional transmittance unset, the task records the zero spectrum as that
sample's transmittance (together with the weighted radiance and the
recorded intersection), so the transmittance vector has a defined entry for
the sample. -/
theorem none_transmittance_records_zero {σ : Type} (ctx : TaskContext σ)
    (rng : RNG) (smp : Sample)
    (hw : flt (FVal.fin 0) (ctx.camera smp).1 = true)
    (hn : (li_out ctx rng smp).2.2 = none)
    (hv : (weighted_radiance ctx rng smp).is_valid = true) :
    processSample ctx rng smp =
      .ok (weighted_radiance ctx rng smp, Spectrum.from_value (FVal.fin 0),
        ((li_out ctx rng smp).2.1).getD Intersection.mk) := by
  simp [processSample, hw, hv, hn]

/-- A concrete task context whose radiance evaluator returns a valid
spectrum and leaves transmittance and intersection unset. -/
def ctx10 : TaskContext Unit :=
  { scene := ()
    camera := fun _ => (FVal.fin 1, rayW)
    li := fun _ _ _ _ => (⟨FVal.fin 2, FVal.fin 0, FVal.fin 0⟩, none, none)
    get_sub_sampler := fun _ _ => some ⟨[[⟨0⟩]]⟩
    inv_sqrt_spp := FVal.fin 1
    seed_sample := ⟨0⟩ }

theorem none_transmittance_records_zero_witness :
    processSample ctx10 0 ⟨0⟩ =
      .ok (weighted_radiance ctx10 0 ⟨0⟩, Spectrum.from_value (FVal.fin 0),
        ((li_out ctx10 0 ⟨0⟩).2.1).getD Intersection.mk) :=
  none_transmittance_records_zero ctx10 0 ⟨0⟩ (by decide) rfl (by
    simp [weighted_radiance, li_out, ctx10, scalarMul, fmul,
      Spectrum.is_valid, FVal.isFinite])

/-! ## One record per sample -/

/-- The radiance entry recorded for a sample is the weighted evaluator
radiance whenever the camera ray weight is positive. -/
def recordsWeighted {σ : Type} (ctx : TaskContext σ) (rng : RNG)
    (smp : Sample) (l : Spectrum) : Prop :=
  flt (FVal.fin 0) (ctx.camera smp).1 = true →
    l = weighted_radiance ctx rng smp

lemma processSample_ok_pos {σ : Type} (ctx : TaskContext σ) (rng : RNG)
    (smp : Sample) (l : Spectrum) (t : Spectrum) (i : Intersection)
    (h : processSample ctx rng smp = .ok (l, t, i))
    (hw : flt (FVal.fin 0) (ctx.camera smp).1 = true) :
    l = weighted_radiance ctx rng smp := by
  cases hv : (weighted_radiance ctx rng smp).is_valid with
  | false => simp [processSample, hw, hv] at h
  | true =>
    simp only [processSample, hw, hv, if_true] at h
    cases h
    rfl

lemma runSamples_ok {σ : Type} (ctx : TaskContext σ) (rng : RNG)
    (samples : List Sample) :
    ∀ out : TaskOutput, runSamples ctx rng samples = .ok out →
      out.1.length = samples.length ∧ out.2.1.length = samples.length ∧
      out.2.2.length = samples.length ∧
      List.Forall₂ (recordsWeighted ctx rng) samples out.1 := by
  induction samples with
  | nil =>
    intro out h
    simp only [runSamples] at h
    injection h with h2
    subst h2
    simp [List.Forall₂.nil]
  | cons smp rest ih =>
    intro out h
    simp only [runSamples] at h
    cases hps : processSample ctx rng smp with
    | error e => rw [hps] at h; simp at h
    | ok lti =>
      obtain ⟨l, t, i⟩ := lti
      rw [hps] at h
      cases hrs : runSamples ctx rng rest with
      | error e => rw [hrs] at h; simp at h
      | ok out1 =>
        obtain ⟨ls1, ts1, is1⟩ := out1
        rw [hrs] at h
        simp only [] at h
        injection h with h2
        subst h2
        obtain ⟨e1, e2, e3, e4⟩ := ih (ls1, ts1, is1) hrs
        refine ⟨by simpa using e1, by simpa using e2, by simpa using e3, ?_⟩
        exact List.Forall₂.cons
          (fun hw => processSample_ok_pos ctx rng smp l t i hps hw) e4

lemma runSamples_append {σ : Type} (ctx : TaskContext σ) (rng : RNG)
    (xs ys : List Sample) :
    runSamples ctx rng (xs ++ ys) =
      appendOutputs (runSamples ctx rng xs) (runSamples ctx rng ys) := by
  induction xs with
  | nil =>
    simp only [List.nil_append, runSamples]
    cases h : runSamples ctx rng ys with
    | error e => simp [appendOutputs]
    | ok out =>
      obtain ⟨a, b, c⟩ := out
      simp [appendOutputs]
  | cons x xs ih =>
    cases hx : processSample ctx rng x with
    | error e => simp [List.cons_append, runSamples, hx, appendOutputs]
    | ok lti =>
      obtain ⟨l, t, i⟩ := lti
      cases ha : runSamples ctx rng xs with
      | error e =>
        simp [List.cons_append, runSamples, hx, ih, ha, appendOutputs]
      | ok o1 =>
        obtain ⟨a1, b1, c1⟩ := o1
        cases hb : runSamples ctx rng ys with
        | error e =>
          simp [List.cons_append, runSamples, hx, ih, ha, hb, appendOutputs]
        | ok o2 =>
          obtain ⟨a2, b2, c2⟩ := o2
          simp [List.cons_append, runSamples, hx, ih, ha, hb, appendOutputs]

lemma runBatches_join {σ : Type} (ctx : TaskContext σ) (rng : RNG)
    (bs : List (List Sample)) :
    runBatches ctx rng bs = runSamples ctx rng bs.flatten := by
  induction bs with
  | nil => rfl
  | cons b bs ih =>
    simp only [runBatches, ih, List.flatten_cons, runSamples_append]

/-- C6: when a task with a sub-sampler completes, it has recorded exactly
one radiance, one transmittance and one intersection entry per sample
processed (the three vectors have the length of the task's sample
sequence), and every positive-weight sample's recorded radiance is the
evaluator radiance scaled by that sample's camera ray weight. -/
theorem run_task_reports_once_per_sample {σ : Type} (ctx : TaskContext σ)
    (i T : ℤ) (sub : SubSampler)
    (hs : ctx.get_sub_sampler i T = some sub) (out : TaskOutput)
    (h : run_task ctx i T = .ok out) :
    out.1.length = sub.batches.flatten.length ∧
    out.2.1.length = sub.batches.flatten.length ∧
    out.2.2.length = sub.batches.flatten.length ∧
    List.Forall₂ (recordsWeighted ctx (PseudoRNG.new i))
      sub.batches.flatten out.1 := by
  simp only [run_task, hs] at h
  rw [runBatches_join] at h
  exact runSamples_ok ctx (PseudoRNG.new i) sub.batches.flatten out h

theorem run_task_reports_once_per_sample_witness :
    ([weighted_radiance ctx10 0 ⟨0⟩] : List Spectrum).length =
      ([[(⟨0⟩ : Sample)]] : List (List Sample)).flatten.length ∧
    ([Spectrum.from_value (FVal.fin 0)] : List Spectrum).length =
      ([[(⟨0⟩ : Sample)]] : List (List Sample)).flatten.length ∧
    ([Intersection.mk] : List Intersection).length =
      ([[(⟨0⟩ : Sample)]] : List (List Sample)).flatten.length ∧
    List.Forall₂ (recordsWeighted ctx10 (PseudoRNG.new 0))
      ([[(⟨0⟩ : Sample)]] : List (List Sample)).flatten
      [weighted_radiance ctx10 0 ⟨0⟩] := by
  have hw : flt (FVal.fin 0) (ctx10.camera ⟨0⟩).1 = true := by decide
  have hv : (weighted_radiance ctx10 0 ⟨0⟩).is_valid = true := by
    simp [weighted_radiance, li_out, ctx10, scalarMul, fmul,
      Spectrum.is_valid, FVal.isFinite]
  have hps : processSample ctx10 0 ⟨0⟩ =
      .ok (weighted_radiance ctx10 0 ⟨0⟩, Spectrum.from_value (FVal.fin 0),
        Intersection.mk) := by
    simp only [processSample, hw, hv, if_true]
    simp [li_out, ctx10]
  have h : run_task ctx10 0 1 =
      .ok ([weighted_radiance ctx10 0 ⟨0⟩],
        [Spectrum.from_value (FVal.fin 0)], [Intersection.mk]) := by
    show runBatches ctx10 (PseudoRNG.new 0) [[⟨0⟩]] = _
    simp [runBatches, runSamples, appendOutputs, PseudoRNG.new, hps]
  exact run_task_reports_once_per_sample ctx10 0 1 ⟨[[⟨0⟩]]⟩ rfl
    ([weighted_radiance ctx10 0 ⟨0⟩], [Spectrum.from_value (FVal.fin 0)],
      [Intersection.mk]) h

/-! ## Determinism across schedules -/

/-- C8: per-task results are a pure function of the shared read-only
context, the task index and the task count (each task's RNG is
`PseudoRNG.new task_idx` inside `run_task`, seeded from the index alone).
Hence for any two execution schedules of the same task set the per-task
results are the same up to the schedule's reordering — and in particular
two executions under the same schedule are identical. -/
theorem render_schedule_deterministic {σ : Type} (ctx : TaskContext σ)
    (T : ℤ) (o1 o2 : List ℤ) (h : o1.Perm o2) :
    (renderSchedule ctx T o1).Perm (renderSchedule ctx T o2) ∧
    ∀ p ∈ renderSchedule ctx T o1, p.2 = run_task ctx p.1 T := by
  constructor
  · exact h.map _
  · intro p hp
    rcases List.mem_map.mp hp with ⟨i, hi, rfl⟩
    rfl

theorem render_schedule_deterministic_witness :
    (renderSchedule ctxNaN 2 [0, 1]).Perm (renderSchedule ctxNaN 2 [1, 0]) :=
  (render_schedule_deterministic ctxNaN 2 [0, 1] [1, 0]
    (List.Perm.swap 1 0 [])).1

/-! ## Lock structure of run_task

The shared state actually used by `run_task` is hand-translated into a
critical-section trace.  The entire task context — scene, renderer (camera,
sampler, integrators) and the seed sample — sits behind the single
`Arc<Mutex<&mut SamplerRendererTaskData>>` built at
src/sampler_renderer.rs lines 184-185; `run_task` locks that one mutex at
lines 74 (sub-sampler derivation), 81 (scene read), 92 (seed-sample
cloning), 111 (camera ray generation, per sample), 125 (radiance
evaluation, per positive-weight sample; the source comment there reads
"!FIXME! I think this synchronization is a bit too coarse grained") and
159 (debug sample read).  No other mutex exists, and no accumulator lock
exists (result reporting is not implemented). -/

/-- The pieces of shared state bundled in `SamplerRendererTaskData`. -/
inductive SharedDatum where
  | scene
  | renderer
  | sample
deriving DecidableEq

/-- The mutexes used by `run_task`: only the one task-data mutex. -/
inductive TaskMutex where
  | taskData
deriving DecidableEq

/-- The operations run_task performs while holding a lock. -/
inductive LockedOp where
  | subSamplerDerivation
  | sceneRead
  | seedSampleClone
  | cameraRayGen
  | radianceEval
  | debugSampleRead
deriving DecidableEq

/-- What the task-data mutex guards: the entire task context. -/
def taskDataGuards : List SharedDatum :=
  [SharedDatum.scene, SharedDatum.renderer, SharedDatum.sample]

/-- The critical sections taken for one sample of the loop body: camera ray
generation under the task-data mutex, then, for a positive-weight sample,
radiance evaluation under the same mutex. -/
def sampleLockOps (w : Bool) : List (TaskMutex × LockedOp) :=
  (TaskMutex.taskData, LockedOp.cameraRayGen) ::
    (if w then [(TaskMutex.taskData, LockedOp.radianceEval)] else [])

/-- The sequence of critical sections taken by `run_task`, in source order,
for a task whose samples have the given positivity flags. -/
def run_task_lock_trace (weights : List Bool) : List (TaskMutex × LockedOp) :=
  [(TaskMutex.taskData, LockedOp.subSamplerDerivation),
   (TaskMutex.taskData, LockedOp.sceneRead),
   (TaskMutex.taskData, LockedOp.seedSampleClone)] ++
  (weights.map sampleLockOps).flatten ++
  [(TaskMutex.taskData, LockedOp.debugSampleRead)]

/-- C9: in a task processing one positive-weight sample, every critical
section — sub-sampler derivation, scene read, seed-sample clone, camera ray
generation, radiance evaluation and the debug read — runs under the same
single task-data mutex, which guards scene, renderer and sample together:
one mutex wraps the entire task context across both camera ray generation
and radiance evaluation, and no separate sampler-cursor or accumulator
lock exists in the trace. -/
theorem single_mutex_lock_trace :
    run_task_lock_trace [true] =
      [(TaskMutex.taskData, LockedOp.subSamplerDerivation),
       (TaskMutex.taskData, LockedOp.sceneRead),
       (TaskMutex.taskData, LockedOp.seedSampleClone),
       (TaskMutex.taskData, LockedOp.cameraRayGen),
       (TaskMutex.taskData, LockedOp.radianceEval),
       (TaskMutex.taskData, LockedOp.debugSampleRead)] ∧
    (TaskMutex.taskData, LockedOp.cameraRayGen) ∈ run_task_lock_trace [true] ∧
    (TaskMutex.taskData, LockedOp.radianceEval) ∈ run_task_lock_trace [true] ∧
    taskDataGuards =
      [SharedDatum.scene, SharedDatum.renderer, SharedDatum.sample] := by
  refine ⟨rfl, ?_, ?_, rfl⟩ <;> decide

end Pbrt
